import Mathlib

/-!
Shallow embedding of the HayMAS evidence-gated writing pipeline and of its React
frontend, together with proofs of the spec's testable properties.

Frontend definitions are translated from the TypeScript sources under
`src/frontend/src` (`types/index.ts`, `hooks/useStudio.ts`,
`components/Studio.tsx`, `components/LogDrawer.tsx` / `ProducingView`).
The Python backend (`evidence_gated/orchestrator.py` and its agents) is not part
of this snapshot; where a property is decided by backend code, the component is
modelled from the spec and the repository's own documentation (README, BACKLOG,
design document), and its doc comment says so.
-/

namespace HayMAS

/-! ### Frontend type declarations (src/frontend/src/types/index.ts) -/

-- index.ts line 3:
-- export type EventType = 'thinking' | 'tool_call' | 'tool_result' | 'response' | 'error' | 'status'
inductive EventType
  | thinking
  | tool_call
  | tool_result
  | response
  | error
  | status
deriving DecidableEq, Repr

def EventType.toStr : EventType → String
  | .thinking => "thinking"
  | .tool_call => "tool_call"
  | .tool_result => "tool_result"
  | .response => "response"
  | .error => "error"
  | .status => "status"

-- The string literals of the declared `EventType` union, in declaration order.
def EventTypeValues : List String :=
  ["thinking", "tool_call", "tool_result", "response", "error", "status"]

-- index.ts lines 91-101: the editor-verdict domains as declared by the frontend.
def EditorVerdictTypeValues : List String :=
  ["approved", "revise", "research"]

def EditorIssueTypeValues : List String :=
  ["style", "structure", "content_gap", "factual_error"]

def IssueSeverityValues : List String :=
  ["minor", "major", "critical"]

-- index.ts line 99: suggested_action: 'revise' | 'research'
def SuggestedActionValues : List String :=
  ["revise", "research"]

structure EditorIssue where
  type : String
  description : String
  severity : String
  suggested_action : String
  research_query : Option String := none
deriving DecidableEq, Repr

structure EditorVerdict where
  verdict : String
  confidence : Rat
  issues : List EditorIssue
  summary : String
  raw_feedback : String
deriving DecidableEq, Repr

-- The `data` record of an event, restricted to the fields the frontend reads
-- (`data?.article_path` in useStudio.ts, `data?.verdict` in ProducingView).
structure EventData where
  article_path : Option String := none
  verdict : Option EditorVerdict := none
deriving DecidableEq, Repr

-- index.ts lines 5-10
structure AgentEvent where
  type : EventType
  agent : String
  content : String
  data : Option EventData := none
deriving DecidableEq, Repr

-- index.ts line 1
inductive StudioState
  | idle
  | analyzing
  | planning
  | producing
  | complete
deriving DecidableEq, Repr

/-! ### EditorVerdictDisplay (src/frontend/src/components/LogDrawer.tsx lines 341-361) -/

structure VerdictConfig where
  icon : String
  color : String
  label : String
deriving DecidableEq, Repr

def approvedConfig : VerdictConfig :=
  ⟨"CheckCircle", "text-green-600 bg-green-50 border-green-200", "Genehmigt"⟩

def reviseConfig : VerdictConfig :=
  ⟨"Edit3", "text-amber-600 bg-amber-50 border-amber-200", "Überarbeitung"⟩

def researchConfig : VerdictConfig :=
  ⟨"Search", "text-blue-600 bg-blue-50 border-blue-200", "Nachrecherche"⟩

-- A JS bracket lookup on the `verdictConfig` object literal traverses the
-- prototype chain: an own key yields its configuration; a key naming a member
-- of Object.prototype yields that inherited function or object, which is
-- truthy but is not a configuration; any other key yields `undefined`, the
-- only falsy outcome.
inductive LookupResult
  | config (c : VerdictConfig)
  | inherited
  | jsUndefined
deriving DecidableEq, Repr

-- The enumerable and non-enumerable members every plain object literal
-- inherits from Object.prototype; looking any of them up returns a truthy
-- function (or, for __proto__, the prototype object itself).
def objectPrototypeMembers : List String :=
  ["constructor", "hasOwnProperty", "isPrototypeOf", "propertyIsEnumerable",
   "toLocaleString", "toString", "valueOf", "__proto__", "__defineGetter__",
   "__defineSetter__", "__lookupGetter__", "__lookupSetter__"]

-- The lookup `verdictConfig[v]` itself.
def verdictConfigLookup (v : String) : LookupResult :=
  if v = "approved" then .config approvedConfig
  else if v = "revise" then .config reviseConfig
  else if v = "research" then .config researchConfig
  else if v ∈ objectPrototypeMembers then .inherited
  else .jsUndefined

-- LogDrawer.tsx line 360:
--   const config = verdictConfig[verdict.verdict] || verdictConfig.revise
-- `||` substitutes the revise configuration only for the falsy (undefined)
-- lookup result; a truthy inherited prototype member is kept as-is.
def resolveVerdictConfig (v : String) : LookupResult :=
  match verdictConfigLookup v with
  | .jsUndefined => .config reviseConfig
  | r => r

-- Lines 361-367: const Icon = config.icon; … <Icon size={18} />.  Mounting
-- succeeds only when `config` is an actual configuration; on an inherited
-- prototype member `config.icon` is undefined and the render throws.
def renderVerdictConfig (v : String) : Option VerdictConfig :=
  match resolveVerdictConfig v with
  | .config c => some c
  | _ => none

/-! ### useStudio hook state machine (src/frontend/src/hooks/useStudio.ts) -/

structure StudioStore where
  state : StudioState
  question : String
  events : List AgentEvent
  articleContent : Option String
  articlePath : Option String
  error : Option String
deriving DecidableEq, Repr

def initialStore : StudioStore :=
  { state := .idle, question := "", events := [], articleContent := none,
    articlePath := none, error := none }

-- startGeneration, lines 140-144: the state updates performed before the stream starts.
def startGenerationInit (s : StudioStore) : StudioStore :=
  { s with state := .producing, events := [], articleContent := none,
           articlePath := none, error := none }

-- The per-event callback, lines 150-157.  JS truthiness: an empty-string
-- `article_path` is falsy and does not update `articlePath`.
def onGenerationEvent (s : StudioStore) (e : AgentEvent) : StudioStore :=
  let s1 := { s with events := s.events ++ [e] }
  match e.type, e.data with
  | .response, some d =>
    match d.article_path with
    | some p => if p = "" then s1 else { s1 with articlePath := some p }
    | none => s1
  | _, _ => s1

def processEvents (s : StudioStore) (evs : List AgentEvent) : StudioStore :=
  evs.foldl onGenerationEvent s

-- The completion callback, lines 158-176.  `captured` is the value of the
-- `events` state variable that the callback closed over when `startGeneration`
-- created it - the list from BEFORE the run cleared it - not the events
-- accumulated during the run.  `fetch` models `getArticle` (none on a caught
-- exception, which the code ignores).  JS truthiness again: an empty-string
-- path or filename is falsy.
def onGenerationDone (captured : List AgentEvent) (fetch : String → Option String)
    (s : StudioStore) : StudioStore :=
  let s1 := { s with state := StudioState.complete }
  match (captured.getLast?).bind (fun e => e.data.bind (fun d => d.article_path)) with
  | some p =>
    if p = "" then s1
    else
      match (p.splitOn "/").getLast? with
      | some fn =>
        if fn = "" then s1
        else
          match fetch fn with
          | some content => { s1 with articleContent := some content }
          | none => s1
      | none => s1
  | none => s1

-- The stream-error callback, lines 177-180: setError(err); setState('idle').
def onGenerationError (s : StudioStore) (err : String) : StudioStore :=
  { s with error := some err, state := StudioState.idle }

-- The (truthy) article_path a single event contributes: only a response event
-- whose data carries a non-empty article_path updates the stored path.
def responsePathOf (e : AgentEvent) : Option String :=
  match e.type, e.data with
  | .response, some d =>
    match d.article_path with
    | some p => if p = "" then none else some p
    | none => none
  | _, _ => none

-- The stored article path after a run, threading the accumulator left to
-- right: a later qualifying response event overrides an earlier one.
def lastPathFrom (acc : Option String) : List AgentEvent → Option String
  | [] => acc
  | e :: rest => lastPathFrom ((responsePathOf e).or acc) rest

-- The last truthy article_path carried by a response event of the run.
def lastResponsePath (evs : List AgentEvent) : Option String :=
  lastPathFrom none evs

/-! ### Studio view routing (src/frontend/src/components/Studio.tsx lines 54-93) -/

inductive View
  | idleView
  | planningView
  | producingView
  | completeView
deriving DecidableEq, Repr

-- Which main view Studio.tsx renders for each state ('idle' and 'analyzing'
-- both render IdleView; CompleteView is rendered only in state 'complete').
def renderView : StudioState → View
  | .idle => .idleView
  | .analyzing => .idleView
  | .planning => .planningView
  | .producing => .producingView
  | .complete => .completeView

/-! ### Evidence-gated backend data model

The Python backend (`evidence_gated/models.py` and the agents) is not part of
the snapshot.  The data objects below are modelled from the spec's §3 data
model and the JSON schemas in the repository's design document, restricted to
the fields the claims need. -/

inductive EvidenceClass
  | A
  | B
  | C
deriving DecidableEq, Repr

inductive PackStatus
  | fulfilled
  | insufficient
  | conflict
deriving DecidableEq, Repr

-- The five 0-3 rating dimensions of a source (design document §7.1).
structure Ratings where
  authority : Nat
  independence : Nat
  recency : Nat
  specificity : Nat
  consensus : Nat
deriving DecidableEq, Repr

def Ratings.total (r : Ratings) : Nat :=
  r.authority + r.independence + r.recency + r.specificity + r.consensus

structure RatedSource where
  source_id : String
  publisher : String
  ratings : Ratings
deriving DecidableEq, Repr

structure EvidencePack where
  claim_id : String
  sources : List RatedSource
  status : PackStatus
deriving DecidableEq, Repr

structure Claim where
  id : String
  text : String
  evidence_class : EvidenceClass
  min_sources : Nat
deriving DecidableEq, Repr

-- A sentence of a draft or of the final paper: its text, its optional inline
-- claim-anchor, and whether it asserts a non-trivial (factual-sounding) fact.
structure Sentence where
  text : String
  anchor : Option String
  factual : Bool
deriving DecidableEq, Repr

/-! ### EvidenceRater (modelled) -/

-- Minimum total score an accepted source must reach (design document §7.2).
def SCORE_THRESHOLD : Nat := 10

/-- Modelled from the spec: the accepted subset of an evidence pack's sources -
those whose five-dimension total reaches the fixed threshold
(`evidence_gated/agents/evidence_rater.py` is not in the snapshot). -/
def acceptedSources (ss : List RatedSource) : List RatedSource :=
  ss.filter (fun s => SCORE_THRESHOLD ≤ s.ratings.total)

/-- Modelled from the spec: the EvidenceRater's fulfillment decision
(`evidence_gated/agents/evidence_rater.py` is not in the snapshot).  A pack
becomes `fulfilled` when at least `min_sources` sources score above the
threshold.  The distinct-publisher independence rule is NOT part of the
decision: the repository's backlog records the "Independence Score" check as an
open, unimplemented item ("C-Claims brauchen 2+ unabhängige Quellen … -
Quellenvielfalt nicht garantiert"). -/
def rateStatus (min_sources : Nat) (ss : List RatedSource) : PackStatus :=
  if min_sources ≤ (acceptedSources ss).length then .fulfilled else .insufficient

def distinctPublishers (ss : List RatedSource) : List String :=
  (ss.map (fun s => s.publisher)).dedup

-- Two accepted sources from the same publisher, both scoring 12 ≥ threshold.
def heiseA : RatedSource := ⟨"S-001", "heise", ⟨3, 2, 2, 3, 2⟩⟩

def heiseB : RatedSource := ⟨"S-002", "heise", ⟨3, 2, 3, 2, 2⟩⟩

-- Concrete fixtures used by witnesses: a class-C claim, its fulfilled
-- evidence pack, and a factual sentence anchored to it.
def claimC01 : Claim := ⟨"C-01", "RPA senkt Verwaltungskosten messbar", EvidenceClass.C, 2⟩

def packC01 : EvidencePack := ⟨"C-01", [heiseA, heiseB], PackStatus.fulfilled⟩

def anchoredSentence : Sentence := ⟨"RPA senkt die Kosten um 30 Prozent", some "C-01", true⟩

/-! ### EditorialReviewer hallucination check (modelled) -/

/-- Modelled from the spec: the EditorialReviewer's hallucination check
(`evidence_gated/agents/editorial_reviewer.py` is not in the snapshot).  Per
the README and the backlog's documented issue JSON, every factual-sounding
sentence without a claim-anchor yields an issue of type "hallucination" whose
`suggested_action` is "remove" (the documented default) or "research" when the
reviewer requests a source search (`wantResearch`). -/
def hallucinationIssues (sentences : List Sentence) (wantResearch : String → Bool) :
    List EditorIssue :=
  (sentences.filter (fun s => s.factual && s.anchor.isNone)).map
    (fun s =>
      { type := "hallucination"
        description := s.text
        severity := "major"
        suggested_action := if wantResearch s.text then "research" else "remove"
        research_query := if wantResearch s.text then some s.text else none })

/-! ### FinalVerifier and anchor soundness (modelled) -/

/-- Modelled from the spec: whether a claim id may back a factual sentence -
the id is in the ClaimRegister and the claim is class A or its EvidencePack is
`fulfilled` (`evidence_gated/agents/final_verifier.py` is not in the
snapshot). -/
def claimBacked (reg : List Claim) (packs : List EvidencePack) (cid : String) : Bool :=
  match reg.find? (fun c => c.id = cid) with
  | none => false
  | some c =>
    (c.evidence_class = EvidenceClass.A) ||
      (match packs.find? (fun p => p.claim_id = cid) with
       | some p => p.status = PackStatus.fulfilled
       | none => false)

def sentenceOk (reg : List Claim) (packs : List EvidencePack) (s : Sentence) : Bool :=
  !s.factual ||
    (match s.anchor with
     | some cid => claimBacked reg packs cid
     | none => false)

/-- Modelled from the spec: the FinalVerifier pass that produces the FinalPaper
text (`evidence_gated/agents/final_verifier.py` is not in the snapshot).  It
removes every factual sentence without a live anchor into a class-A claim or a
fulfilled EvidencePack (spec §4.7 and Scenario C: the verifier confirms the
removal of unanchored factual sentences before DONE). -/
def finalVerify (reg : List Claim) (packs : List EvidencePack)
    (draft : List Sentence) : List Sentence :=
  draft.filter (sentenceOk reg packs)

/-! ### BibliographyBuilder (modelled) -/

def anchorsIn (text : List Sentence) : List String :=
  text.filterMap (fun s => s.anchor)

/-- Modelled from the spec: resolving one claim-anchor to the source ids of the
accepted sources of its EvidencePack (`_add_bibliography` in the backend
orchestrator is not in the snapshot). -/
def packSources (packs : List EvidencePack) (cid : String) : List String :=
  match packs.find? (fun p => p.claim_id = cid) with
  | some p => (acceptedSources p.sources).map (fun s => s.source_id)
  | none => []

/-- Modelled from the spec: the BibliographyBuilder - a pure function that
extracts the claim-anchors actually present in the final text, resolves each to
its accepted sources and de-duplicates by source_id (spec §4.8; the backlog's
`_add_bibliography` fix: only sources referenced in the text are listed). -/
def buildBibliography (packs : List EvidencePack) (text : List Sentence) : List String :=
  ((anchorsIn text).flatMap (packSources packs)).dedup

/-! ### Gap loop bounds (modelled) -/

inductive Verdict
  | approved
  | revise
  | research
deriving DecidableEq, Repr

-- Documented limits (BACKLOG "Smart Editor-Routing": max 3 re-research rounds
-- per editor iteration, max 2 editor iterations).
def MAX_RESEARCH_ROUNDS : Nat := 3

def MAX_REVIEW_CYCLES : Nat := 2

/-- Modelled from the spec: one research cycle of the gap loop
(`evidence_gated/orchestrator.py` is not in the snapshot).  `fuel` is the
remaining round budget of this cycle; each step executes one re-retrieval
batch, then stops early when `resolved j` reports that all flagged gaps are
resolved after the j-th batch.  Returns the number of batches executed. -/
def cycleBatches (resolved : Nat → Bool) : Nat → Nat
  | 0 => 0
  | n + 1 => 1 + (if resolved n then 0 else cycleBatches resolved n)

/-- Modelled from the spec: the review loop of the orchestrator
(`evidence_gated/orchestrator.py` is not in the snapshot).  `fuel` is the
remaining review-cycle budget; `verdict k` is the editor verdict of cycle k and
`resolved k` the gap outcomes within that cycle.  An `approved` verdict is
terminal; `revise` re-invokes the writer without retrieval; `research` runs one
research cycle of at most `MAX_RESEARCH_ROUNDS` batches before the next review.
When the budget is exhausted the run is forced terminal with the current best
draft.  Returns the total number of re-retrieval batches executed. -/
def loopBatches (verdict : Nat → Verdict) (resolved : Nat → Nat → Bool) : Nat → Nat
  | 0 => 0
  | n + 1 =>
    match verdict n with
    | .approved => 0
    | .revise => loopBatches verdict resolved n
    | .research =>
      cycleBatches (resolved n) MAX_RESEARCH_ROUNDS + loopBatches verdict resolved n

/-! ### ClaimMiner retry and abort behaviour (modelled) -/

inductive RunError
  | insufficientClaims
  | insufficientEvidence
deriving DecidableEq, Repr

inductive MineResult
  | ok (register : List Claim)
  | failed
deriving DecidableEq, Repr

-- README: up to 3 re-prompt attempts before the run aborts with 0 claims.
def MAX_MINE_ATTEMPTS : Nat := 3

/-- Modelled from the spec: the ClaimMiner's bounded re-prompt loop
(`evidence_gated/agents/claim_miner.py` is not in the snapshot).  `parse k` is
the claim list parsed from the k-th model response; an empty parse triggers a
re-prompt until the attempt budget is spent. -/
def mineWithRetries (parse : Nat → List Claim) : Nat → MineResult
  | 0 => .failed
  | n + 1 =>
    if (parse (MAX_MINE_ATTEMPTS - (n + 1))).isEmpty then mineWithRetries parse n
    else .ok (parse (MAX_MINE_ATTEMPTS - (n + 1)))

inductive RunOutcome
  | done (paper : List Sentence) (bibliography : List String)
  | aborted (err : RunError) (draft : Option (List Sentence))
deriving DecidableEq, Repr

/-- Modelled from the spec: the orchestrator's entry into the pipeline
(`evidence_gated/orchestrator.py` is not in the snapshot).  If mining fails
after all attempts, the run terminates ABORTED with `InsufficientClaims` and no
draft ("Kritische Abbruchbedingungen: Bei 0 Claims … wird abgebrochen");
otherwise the rest of the pipeline (`rest`) runs on the mined register. -/
def runFromMining (rest : List Claim → RunOutcome) (parse : Nat → List Claim) : RunOutcome :=
  match mineWithRetries parse MAX_MINE_ATTEMPTS with
  | .failed => .aborted .insufficientClaims none
  | .ok cs => rest cs

/-! ## Theorems -/

/-- C4 (amended): every progress event carries a type drawn from the declared
six-element union, which is {thinking, tool_call, tool_result, response,
error, status} - the five types the spec names plus `thinking` - together with
an agent, a content string and optional data (the `AgentEvent` shape). -/
theorem agentEvent_type_in_declared_union (e : AgentEvent) :
    e.type.toStr ∈ EventTypeValues ∧
    EventTypeValues.Nodup ∧ EventTypeValues.length = 6 := by
  refine ⟨?_, by decide, rfl⟩
  cases e.type <;> simp [EventType.toStr, EventTypeValues]

/-- C4 witness: the theorem applied to a concrete status event. -/
theorem agentEvent_type_in_declared_union_witness :
    (AgentEvent.mk .status "Orchestrator" "Phase 1" none).type.toStr ∈ EventTypeValues :=
  (agentEvent_type_in_declared_union (AgentEvent.mk .status "Orchestrator" "Phase 1" none)).1

/-- C4 counterexample: the event stream's declared type union contains
'thinking', so an event of a type outside the claimed five-element set
{status, tool_call, tool_result, response, error} does occur in the domain. -/
theorem event_type_thinking_escapes_claimed_set :
    (AgentEvent.mk .thinking "ClaimMiner" "Analysiere die Kernfrage" none).type.toStr ∈
      EventTypeValues ∧
    (AgentEvent.mk .thinking "ClaimMiner" "Analysiere die Kernfrage" none).type.toStr ∉
      ["status", "tool_call", "tool_result", "response", "error"] := by
  decide

/-- C3: evaluating the modelled hallucination check at the failing input - a
factual sentence with a number and no claim-anchor - yields the documented
issue `(type, suggested_action) = ("hallucination", "remove")`, yet neither
"hallucination" nor "remove" belongs to the frontend's declared review-report
domains `EditorIssueTypeValues` and `SuggestedActionValues`. -/
theorem hallucination_outside_frontend_domains :
    (hallucinationIssues [⟨"RPA senkt die Kosten um 30 Prozent", none, true⟩]
        (fun _ => false)).map (fun i => (i.type, i.suggested_action)) =
      [("hallucination", "remove")] ∧
    "hallucination" ∉ EditorIssueTypeValues ∧
    "remove" ∉ SuggestedActionValues := by
  decide

/-- C10 counterexample: at the malformed verdict string "toString" the object
lookup hits the inherited Object.prototype member - a truthy value - so the
fallback to the revise configuration is skipped, the resolved value is not a
configuration, and mounting the icon fails: rendering an editor-verdict event
does fail on this malformed verdict string. -/
theorem prototype_member_verdict_breaks_render :
    "toString" ∉ EditorVerdictTypeValues ∧
    verdictConfigLookup "toString" = LookupResult.inherited ∧
    resolveVerdictConfig "toString" ≠ LookupResult.config reviseConfig ∧
    renderVerdictConfig "toString" = none := by
  decide

/-- C10 (amended): the EditorVerdictDisplay configuration resolution is total
only off the prototype chain - each of the three declared verdicts resolves to
its configuration, and an unknown verdict string falls back to the 'revise'
configuration provided it names no Object.prototype member; a malformed
verdict string that does name one (such as "toString" or "__proto__") skips
the fallback and the render fails on the inherited non-configuration value. -/
theorem editorVerdictDisplay_fallback_cases (v : String) :
    renderVerdictConfig "approved" = some approvedConfig ∧
    renderVerdictConfig "revise" = some reviseConfig ∧
    renderVerdictConfig "research" = some researchConfig ∧
    (v ∉ EditorVerdictTypeValues → v ∉ objectPrototypeMembers →
      renderVerdictConfig v = some reviseConfig) ∧
    (v ∉ EditorVerdictTypeValues → v ∈ objectPrototypeMembers →
      renderVerdictConfig v = none) := by
  refine ⟨by decide, by decide, by decide, fun hv hm => ?_, fun hv hm => ?_⟩ <;>
  · simp only [EditorVerdictTypeValues, List.mem_cons, List.not_mem_nil, or_false,
      not_or] at hv
    obtain ⟨h1, h2, h3⟩ := hv
    simp [renderVerdictConfig, resolveVerdictConfig, verdictConfigLookup,
      h1, h2, h3, hm]

/-- C10 witness: the fallback at the unknown verdict string "hallucination",
which names no Object.prototype member. -/
theorem editorVerdictDisplay_fallback_cases_witness :
    renderVerdictConfig "hallucination" = some reviseConfig :=
  (editorVerdictDisplay_fallback_cases "hallucination").2.2.2.1 (by decide) (by decide)

/-- C6 counterexample: with the independence check unimplemented, a class-C
evidence requirement of two sources is marked fulfilled by two accepted
sources that share the publisher "heise" - the accepted subset has a single
distinct publisher, not two. -/
theorem same_publisher_pack_fulfilled :
    rateStatus claimC01.min_sources packC01.sources = PackStatus.fulfilled ∧
    claimC01.evidence_class = EvidenceClass.C ∧
    (distinctPublishers (acceptedSources packC01.sources)).length = 1 := by
  decide

/-- C6 (amended): an evidence pack is fulfilled exactly when at least
`min_sources` of its sources score at or above the fixed threshold, and every
accepted source meets the threshold; the distinct-publisher independence rule
is an open backlog item and is not part of the fulfillment decision. -/
theorem rateStatus_fulfilled_iff (m : Nat) (ss : List RatedSource) :
    (rateStatus m ss = PackStatus.fulfilled ↔ m ≤ (acceptedSources ss).length) ∧
    (∀ s ∈ acceptedSources ss, SCORE_THRESHOLD ≤ s.ratings.total) := by
  constructor
  · unfold rateStatus
    split <;> simp_all
  · intro s hs
    simpa using (List.mem_filter.mp hs).2

/-- C6 amended-theorem witness: the fulfillment criterion evaluated on the
concrete same-publisher pack. -/
theorem rateStatus_fulfilled_iff_witness :
    rateStatus 2 [heiseA, heiseB] = PackStatus.fulfilled :=
  (rateStatus_fulfilled_iff 2 [heiseA, heiseB]).1.mpr (by decide)

/-- C5: bibliography minimality - a source id is listed in the bibliography
exactly when some claim-anchor present in the final text resolves to it, and
the list is free of duplicates (de-duplication by source_id). -/
theorem bibliography_minimality (packs : List EvidencePack) (text : List Sentence) :
    (∀ sid, sid ∈ buildBibliography packs text ↔
      ∃ cid ∈ anchorsIn text, sid ∈ packSources packs cid) ∧
    (buildBibliography packs text).Nodup := by
  refine ⟨fun sid => ?_, List.nodup_dedup _⟩
  unfold buildBibliography
  rw [List.mem_dedup]
  simp [List.mem_flatMap]

/-- C5 witness: the accepted source "S-001" is listed for the concrete paper
whose single anchor C-01 resolves to it. -/
theorem bibliography_minimality_witness :
    "S-001" ∈ buildBibliography [packC01] [anchoredSentence] :=
  ((bibliography_minimality [packC01] [anchoredSentence]).1 "S-001").mpr
    ⟨"C-01", by decide, by decide⟩

/-- C1: anchor soundness of the verified final text - every factual sentence
that survives `finalVerify` carries an anchor to a claim of the register that
is class A or whose evidence pack is fulfilled. -/
theorem anchor_soundness (reg : List Claim) (packs : List EvidencePack)
    (draft : List Sentence) (s : Sentence)
    (hs : s ∈ finalVerify reg packs draft) (hf : s.factual = true) :
    ∃ cid, s.anchor = some cid ∧
      ∃ c, c ∈ reg ∧ c.id = cid ∧
        (c.evidence_class = EvidenceClass.A ∨
          ∃ p, p ∈ packs ∧ p.claim_id = cid ∧ p.status = PackStatus.fulfilled) := by
  have hok : sentenceOk reg packs s = true := (List.mem_filter.mp hs).2
  unfold sentenceOk at hok
  rw [hf] at hok
  simp only [Bool.not_true, Bool.false_or] at hok
  cases ha : s.anchor with
  | none =>
    rw [ha] at hok
    exact absurd hok (by simp)
  | some cid =>
    have hok2 : claimBacked reg packs cid = true := by rw [ha] at hok; exact hok
    refine ⟨cid, rfl, ?_⟩
    unfold claimBacked at hok2
    split at hok2
    · exact absurd hok2 (by simp)
    · next c hfind =>
      have hcmem : c ∈ reg := List.mem_of_find?_eq_some hfind
      have hcid : c.id = cid := by simpa using List.find?_some hfind
      refine ⟨c, hcmem, hcid, ?_⟩
      rw [Bool.or_eq_true] at hok2
      rcases hok2 with h | h
      · exact Or.inl (by simpa using h)
      · split at h
        · next p hp =>
          exact Or.inr ⟨p, List.mem_of_find?_eq_some hp,
            by simpa using List.find?_some hp, by simpa using h⟩
        · exact absurd h (by simp)

/-- C1 witness: the theorem at the concrete one-sentence paper anchored to the
fulfilled class-C claim C-01. -/
theorem anchor_soundness_witness :
    ∃ cid, anchoredSentence.anchor = some cid ∧
      ∃ c, c ∈ [claimC01] ∧ c.id = cid ∧
        (c.evidence_class = EvidenceClass.A ∨
          ∃ p, p ∈ [packC01] ∧ p.claim_id = cid ∧ p.status = PackStatus.fulfilled) :=
  anchor_soundness [claimC01] [packC01] [anchoredSentence] anchoredSentence
    (by decide) rfl

/-- One research cycle executes at most as many batches as its round budget. -/
theorem cycleBatches_le (resolved : Nat → Bool) (n : Nat) :
    cycleBatches resolved n ≤ n := by
  induction n with
  | zero => simp [cycleBatches]
  | succ k ih =>
    unfold cycleBatches
    split <;> omega

/-- The review loop with fuel n executes at most n × MAX_RESEARCH_ROUNDS
re-retrieval batches. -/
theorem loopBatches_le (verdict : Nat → Verdict) (resolved : Nat → Nat → Bool)
    (n : Nat) : loopBatches verdict resolved n ≤ n * MAX_RESEARCH_ROUNDS := by
  induction n with
  | zero => simp [loopBatches]
  | succ k ih =>
    unfold loopBatches
    have hc := cycleBatches_le (resolved k) MAX_RESEARCH_ROUNDS
    split <;> simp only [MAX_RESEARCH_ROUNDS] at * <;> omega

/-- C2: loop termination - for every sequence of editor verdicts and every gap
outcome, the gap loop executes at most
MAX_REVIEW_CYCLES × MAX_RESEARCH_ROUNDS = 2 × 3 re-retrieval batches before
the run is forced terminal. -/
theorem gap_loop_batch_bound (verdict : Nat → Verdict) (resolved : Nat → Nat → Bool) :
    loopBatches verdict resolved MAX_REVIEW_CYCLES ≤
      MAX_REVIEW_CYCLES * MAX_RESEARCH_ROUNDS :=
  loopBatches_le verdict resolved MAX_REVIEW_CYCLES

/-- When every re-prompt parses to zero claims, mining fails for any attempt
budget. -/
theorem mineWithRetries_all_empty (parse : Nat → List Claim)
    (hempty : ∀ k, parse k = []) (n : Nat) :
    mineWithRetries parse n = MineResult.failed := by
  induction n with
  | zero => rfl
  | succ k ih =>
    unfold mineWithRetries
    simp [hempty, ih]

/-- A successful mining outcome always carries a non-empty register. -/
theorem mineWithRetries_ok_nonempty (parse : Nat → List Claim) (n : Nat)
    (cs : List Claim) (h : mineWithRetries parse n = MineResult.ok cs) :
    cs ≠ [] := by
  induction n with
  | zero => exact absurd h (by simp [mineWithRetries])
  | succ k ih =>
    unfold mineWithRetries at h
    split at h
    · exact ih h
    · next hne =>
      cases h
      simpa [List.isEmpty_iff] using hne

/-- C7: when every re-prompt attempt parses to zero claims, the run terminates
ABORTED with InsufficientClaims and no draft, and the pipeline never continues
on an empty register - a successful mining result is always non-empty. -/
theorem insufficient_claims_aborts (parse : Nat → List Claim)
    (rest : List Claim → RunOutcome) (hempty : ∀ k, parse k = []) :
    runFromMining rest parse = RunOutcome.aborted RunError.insufficientClaims none ∧
    (∀ (q : Nat → List Claim) (cs : List Claim),
      mineWithRetries q MAX_MINE_ATTEMPTS = MineResult.ok cs → cs ≠ []) := by
  constructor
  · unfold runFromMining
    rw [mineWithRetries_all_empty parse hempty MAX_MINE_ATTEMPTS]
  · intro q cs h
    exact mineWithRetries_ok_nonempty q MAX_MINE_ATTEMPTS cs h

/-- C7 witness: the abort outcome at the concrete always-empty parser. -/
theorem insufficient_claims_aborts_witness :
    runFromMining (fun _ => RunOutcome.done [] []) (fun _ => []) =
      RunOutcome.aborted RunError.insufficientClaims none :=
  (insufficient_claims_aborts (fun _ => []) (fun _ => RunOutcome.done [] [])
    (fun _ => rfl)).1

/-- The per-event callback appends the event, updates `articlePath` from a
truthy response path, and leaves the other fields alone. -/
theorem onGenerationEvent_fields (s : StudioStore) (e : AgentEvent) :
    (onGenerationEvent s e).events = s.events ++ [e] ∧
    (onGenerationEvent s e).articlePath = (responsePathOf e).or s.articlePath ∧
    (onGenerationEvent s e).state = s.state ∧
    (onGenerationEvent s e).articleContent = s.articleContent ∧
    (onGenerationEvent s e).error = s.error := by
  rcases e with ⟨t, a, c, d⟩
  unfold onGenerationEvent responsePathOf
  cases t <;> rcases d with _ | ⟨ap, vd⟩ <;> try simp
  rcases ap with _ | p
  · simp
  · by_cases hp : p = "" <;> simp [hp]

/-- Folding the per-event callback over a run: events accumulate in order, the
article path tracks the last truthy response path, and state, article content
and error are untouched. -/
theorem processEvents_fields (evs : List AgentEvent) (s : StudioStore) :
    (processEvents s evs).events = s.events ++ evs ∧
    (processEvents s evs).articlePath = lastPathFrom s.articlePath evs ∧
    (processEvents s evs).state = s.state ∧
    (processEvents s evs).articleContent = s.articleContent ∧
    (processEvents s evs).error = s.error := by
  induction evs generalizing s with
  | nil => simp [processEvents, lastPathFrom]
  | cons e rest ih =>
    have hstep := onGenerationEvent_fields s e
    have hrest := ih (onGenerationEvent s e)
    unfold processEvents at hrest ⊢
    simp only [List.foldl_cons] at *
    refine ⟨?_, ?_, ?_, ?_, ?_⟩
    · rw [hrest.1, hstep.1, List.append_assoc]
      rfl
    · rw [hrest.2.1, hstep.2.1]; rfl
    · rw [hrest.2.2.1, hstep.2.2.1]
    · rw [hrest.2.2.2.1, hstep.2.2.2.1]
    · rw [hrest.2.2.2.2, hstep.2.2.2.2]

/-- The completion callback only ever touches `state` and `articleContent`. -/
theorem onGenerationDone_fields (captured : List AgentEvent)
    (fetch : String → Option String) (s : StudioStore) :
    (onGenerationDone captured fetch s).state = StudioState.complete ∧
    (onGenerationDone captured fetch s).articlePath = s.articlePath ∧
    (onGenerationDone captured fetch s).events = s.events ∧
    (onGenerationDone captured fetch s).error = s.error := by
  unfold onGenerationDone
  rcases (captured.getLast?).bind (fun e => e.data.bind (fun d => d.article_path)) with _ | p
  · simp
  · by_cases hp : p = ""
    · simp [hp]
    · simp only [hp, if_false]
      rcases (p.splitOn "/").getLast? with _ | fn
      · simp
      · by_cases hfn : fn = ""
        · simp [hfn]
        · simp only [hfn, if_false]
          rcases fetch fn with _ | content <;> simp

/-- C8 counterexample: a concrete run that receives a status event and then a
stream error ends in the 'idle' state with no article content - the idle view
is rendered, not the terminal-artifact view. -/
theorem stream_error_discards_run_view :
    (onGenerationError (processEvents (startGenerationInit initialStore)
        [⟨EventType.status, "Orchestrator", "Starte Evidence-Gated Workflow", none⟩])
      "HTTP 500: Artikel-Generierung fehlgeschlagen").state ≠ StudioState.complete ∧
    renderView (onGenerationError (processEvents (startGenerationInit initialStore)
        [⟨EventType.status, "Orchestrator", "Starte Evidence-Gated Workflow", none⟩])
      "HTTP 500: Artikel-Generierung fehlgeschlagen").state ≠ View.completeView ∧
    (onGenerationError (processEvents (startGenerationInit initialStore)
        [⟨EventType.status, "Orchestrator", "Starte Evidence-Gated Workflow", none⟩])
      "HTTP 500: Artikel-Generierung fehlgeschlagen").articleContent = none := by
  decide

/-- C8 (amended): on a stream error the client stores the error message and
transitions to the 'idle' state; the events accumulated during the run are
retained, but no article content is held and the idle view - not the
terminal-artifact view - is rendered. -/
theorem stream_error_behavior (s0 : StudioStore) (evs : List AgentEvent) (err : String) :
    (onGenerationError (processEvents (startGenerationInit s0) evs) err).state =
      StudioState.idle ∧
    (onGenerationError (processEvents (startGenerationInit s0) evs) err).error =
      some err ∧
    (onGenerationError (processEvents (startGenerationInit s0) evs) err).events = evs ∧
    (onGenerationError (processEvents (startGenerationInit s0) evs) err).articleContent =
      none ∧
    renderView (onGenerationError (processEvents (startGenerationInit s0) evs) err).state =
      View.idleView := by
  have h := processEvents_fields evs (startGenerationInit s0)
  unfold onGenerationError
  refine ⟨rfl, rfl, ?_, ?_, rfl⟩
  · simpa [startGenerationInit] using h.1
  · simpa [startGenerationInit] using h.2.2.2.1

/-- C9: the completion callback sets the state to 'complete' unconditionally;
because it reads the last element of the events list captured when
startGeneration was invoked - which the run had just cleared - a run started
with an empty prior event list never sets the article content from the
completion handler (it stays none, for every fetch result), while the article
path is exactly the last truthy path carried by a response event of the run. -/
theorem onDone_reads_captured_events (s0 : StudioStore) (evs : List AgentEvent)
    (fetch : String → Option String) :
    (∀ (captured : List AgentEvent) (s : StudioStore),
      (onGenerationDone captured fetch s).state = StudioState.complete) ∧
    (onGenerationDone [] fetch (processEvents (startGenerationInit s0) evs)).articleContent =
      none ∧
    (onGenerationDone [] fetch (processEvents (startGenerationInit s0) evs)).articlePath =
      lastResponsePath evs := by
  have h := processEvents_fields evs (startGenerationInit s0)
  refine ⟨fun captured s => (onGenerationDone_fields captured fetch s).1, ?_, ?_⟩
  · show (processEvents (startGenerationInit s0) evs).articleContent = none
    simpa [startGenerationInit] using h.2.2.2.1
  · rw [(onGenerationDone_fields [] fetch _).2.1]
    simpa [startGenerationInit, lastResponsePath] using h.2.1

end HayMAS
